import Mathlib

/-!
Verification development for the webhook-relay repository.

Shallow embedding of the relay server (packages/relay-server/src: routes/webhook.ts,
services/replay.ts, services/ratelimit.ts, websocket/manager.ts), the node SDK client
(WebhookRelay.ts, utils/retry.ts) and the endpoint encryption helpers (crypto module,
AES-256-GCM).  Times are integers in milliseconds.  Redis keys with TTLs are modelled
as association lists carrying absolute expiry times; a key is live at time now exactly
when now is strictly below its expiry, matching Redis expiration.
-/

/-- Opaque JSON body of an ingestion request.  Only the event_id field is inspected by
the pipeline (routes/webhook.ts line 55); the rest is carried opaquely. -/
structure Body where
  event_id : Option String
  data : String
  deriving DecidableEq, Repr

/-- Result of the ingestion pipeline as surfaced at the HTTP boundary of
routes/webhook.ts: 401, 409, 429, 200, 202. -/
inductive DeliveryResult where
  | unauthorized
  | duplicateEvent
  | rateLimitExceeded (retryAfter : ℤ)
  | delivered
  | queued
  deriving DecidableEq, Repr

/-- Association-list lookup, first match wins (models JS Map.get and Redis GET). -/
def lookupAssoc {α : Type} : List (String × α) → String → Option α
  | [], _ => none
  | (k, v) :: rest, key => if k = key then some v else lookupAssoc rest key

/-- Remove every entry with the given key (models JS Map.delete and Redis DEL). -/
def removeAssoc {α : Type} : List (String × α) → String → List (String × α)
  | [], _ => []
  | (k, v) :: rest, key =>
      if k = key then removeAssoc rest key else (k, v) :: removeAssoc rest key

/-- Insert or replace the entry for a key (models JS Map.set and Redis SET/SETEX). -/
def setAssoc {α : Type} (l : List (String × α)) (key : String) (v : α) :
    List (String × α) :=
  (key, v) :: removeAssoc l key

/-- The replay store: event id mapped to the absolute expiry time of its marker
(services/replay.ts, Redis key event:processed with a 600 s TTL). -/
abbrev ReplayStore := List (String × ℤ)

/-- DEDUP_TTL of services/replay.ts (10 minutes), in milliseconds. -/
def DEDUP_TTL_MS : ℤ := 600000

/-- Redis EXISTS on the replay marker key: present and unexpired. -/
def replayExists (store : ReplayStore) (eventId : String) (now : ℤ) : Bool :=
  store.any fun p => decide (p.1 = eventId) && decide (now < p.2)

/-- preventReplay of services/replay.ts, as observed by a single request running
without interleaving: EXISTS then, if absent, SETEX with the 10-minute TTL.  The
error value models the thrown ReplayError. -/
def preventReplay (store : ReplayStore) (eventId : String) (now : ℤ) :
    Except Unit ReplayStore :=
  if replayExists store eventId now then Except.error ()
  else Except.ok ((eventId, now + DEDUP_TTL_MS) :: store)

/-- One entry of the rate-limit store (services/ratelimit.ts): the Redis counter
value and its expiry; none means the key has no TTL (INCR created it and PEXPIRE
has not run yet). -/
structure RateEntry where
  count : ℕ
  expiry : Option ℤ
  deriving DecidableEq, Repr

abbrev RateStore := List (String × RateEntry)

/-- Redis INCR: a missing or expired key restarts at 1 (with no TTL), a live key
is incremented keeping its TTL. -/
def redisIncr (rate : RateStore) (key : String) (now : ℤ) : ℕ × RateStore :=
  match lookupAssoc rate key with
  | some e =>
      match e.expiry with
      | some exp =>
          if now < exp then
            (e.count + 1, setAssoc rate key { e with count := e.count + 1 })
          else (1, setAssoc rate key { count := 1, expiry := none })
      | none => (e.count + 1, setAssoc rate key { e with count := e.count + 1 })
  | none => (1, setAssoc rate key { count := 1, expiry := none })

/-- Redis PEXPIRE: set the expiry of an existing key; no-op on a missing key. -/
def redisPexpire (rate : RateStore) (key : String) (at_ : ℤ) : RateStore :=
  match lookupAssoc rate key with
  | some e => setAssoc rate key { e with expiry := some at_ }
  | none => rate

/-- Redis PTTL: remaining milliseconds, -1 for a key without TTL, -2 if missing
or expired. -/
def redisPttl (rate : RateStore) (key : String) (now : ℤ) : ℤ :=
  match lookupAssoc rate key with
  | some e =>
      match e.expiry with
      | some exp => if now < exp then exp - now else -2
      | none => -1
  | none => -2

/-- RATE_LIMIT_WINDOW of services/ratelimit.ts (60 s), in milliseconds. -/
def RATE_LIMIT_WINDOW_MS : ℤ := 60000

/-- RATE_LIMIT_MAX of services/ratelimit.ts. -/
def RATE_LIMIT_MAX : ℕ := 100

/-- The observability record returned by checkRateLimit on success. -/
structure RateInfo where
  limit : ℕ
  remaining : ℕ
  reset : ℤ
  deriving DecidableEq, Repr

/-- checkRateLimit of services/ratelimit.ts: INCR, PEXPIRE on the first request of
the window, PTTL, then compare against the cap.  The error value carries the
retryAfter field of the thrown RateLimitError (the remaining window).  Note that
remaining uses truncated subtraction, matching Math.max(0, MAX - count). -/
def checkRateLimit (rate : RateStore) (relayId : String) (now : ℤ) :
    Except ℤ RateInfo × RateStore :=
  let ir := redisIncr rate relayId now
  let rate2 := if ir.1 = 1 then redisPexpire ir.2 relayId (now + RATE_LIMIT_WINDOW_MS)
               else ir.2
  let ttl := redisPttl rate2 relayId now
  if RATE_LIMIT_MAX < ir.1 then (Except.error ttl, rate2)
  else (Except.ok { limit := RATE_LIMIT_MAX, remaining := RATE_LIMIT_MAX - ir.1,
                    reset := now + ttl }, rate2)

/-- A live agent connection as held by WebSocketManager.connections
(websocket/manager.ts lines 9-15).  The socket handle is identified by a number so
that closing and frame delivery are observable. -/
structure AgentConnection where
  relayId : String
  socketId : ℕ
  sessionId : String
  connectedAt : ℤ
  lastPing : ℤ
  deriving DecidableEq, Repr

/-- Frames the server writes to a socket (only those emitted by the modelled
functions). -/
inductive ServerFrame where
  | authSuccess (relayId sessionId : String)
  | webhook (id : String) (timestamp : ℤ) (signature : String) (payload : Body)
  deriving DecidableEq, Repr

/-- An event as handed to WebSocketManager.sendWebhook by the webhook route. -/
structure EventMsg where
  id : String
  signature : String
  payload : Body
  deriving DecidableEq, Repr

/-- A pending-acknowledgment record (Redis key ack:pending, manager.ts lines
134-139): the relayId it was sent to, when, and the 30 s expiry. -/
structure PendingAck where
  relayId : String
  sentAt : ℤ
  expiry : ℤ
  deriving DecidableEq, Repr

/-- Combined state of the relay server: the in-memory connection registry of
WebSocketManager plus the Redis-backed stores.  closedSockets records every socket
on which close() was called; sentFrames logs every frame written to a socket. -/
structure RelayState where
  connections : List (String × AgentConnection)
  closedSockets : List ℕ
  sentFrames : List (ℕ × ServerFrame)
  sessions : List (String × String)
  replay : ReplayStore
  rate : RateStore
  queue : List (String × List EventMsg)
  acks : List (String × PendingAck)
  deriving DecidableEq, Repr

/-- The empty initial server state. -/
def RelayState.init : RelayState :=
  { connections := [], closedSockets := [], sentFrames := [], sessions := [],
    replay := [], rate := [], queue := [], acks := [] }

/-- Successful authentication inside WebSocketManager.handleConnection
(manager.ts lines 47-77): store the connection in the registry map, store the
session in Redis, send auth_success.  No socket is closed here: a previously
registered connection for the same relayId is only dropped from the map. -/
def registerConnection (st : RelayState) (relayId sessionId : String)
    (socketId : ℕ) (now : ℤ) : RelayState :=
  { st with
    connections := setAssoc st.connections relayId
      { relayId := relayId, socketId := socketId, sessionId := sessionId,
        connectedAt := now, lastPing := now },
    sessions := setAssoc st.sessions relayId sessionId,
    sentFrames := st.sentFrames ++ [(socketId, ServerFrame.authSuccess relayId sessionId)] }

/-- The close handler installed by handleConnection (manager.ts lines 103-109):
delete the registry entry and the Redis session for the captured relayId. -/
def socketCloseHandler (st : RelayState) (relayId : String) : RelayState :=
  { st with
    connections := removeAssoc st.connections relayId,
    sessions := removeAssoc st.sessions relayId }

/-- Redis LPUSH on the offline queue key queue:pending (manager.ts line 121). -/
def lpushQueue (q : List (String × List EventMsg)) (key : String) (ev : EventMsg) :
    List (String × List EventMsg) :=
  match lookupAssoc q key with
  | some l => setAssoc q key (ev :: l)
  | none => setAssoc q key [ev]

/-- ACK_TIMEOUT of manager.ts line 137 (30 s), in milliseconds. -/
def ACK_TTL_MS : ℤ := 30000

/-- WebSocketManager.sendWebhook (manager.ts lines 116-142): if no registry entry,
LPUSH to the offline queue and report queued; otherwise send a webhook frame on the
registered socket, SETEX the pending-ack record keyed by the event id, and report
delivered. -/
def sendWebhook (st : RelayState) (relayId : String) (event : EventMsg) (now : ℤ) :
    DeliveryResult × RelayState :=
  match lookupAssoc st.connections relayId with
  | none =>
      (DeliveryResult.queued, { st with queue := lpushQueue st.queue relayId event })
  | some conn =>
      (DeliveryResult.delivered,
        { st with
          sentFrames := st.sentFrames ++
            [(conn.socketId, ServerFrame.webhook event.id now event.signature event.payload)],
          acks := setAssoc st.acks event.id
            { relayId := relayId, sentAt := now, expiry := now + ACK_TTL_MS } })

/-- WebSocketManager.handleAck (manager.ts lines 144-148): Redis DEL of the
pending-ack record keyed by the event id; the relayId argument is only logged. -/
def handleAck (st : RelayState) (relayId eventId : String) : RelayState :=
  { st with acks := removeAssoc st.acks eventId }

/-- MAX_AGE of routes/webhook.ts line 44 (5 minutes), in milliseconds. -/
def MAX_AGE_MS : ℤ := 300000

/-- Event-id resolution of routes/webhook.ts line 55: event.event_id or, when that
field is missing or JS-falsy (the empty string), the freshly drawn random UUID. -/
def eventIdOf (body : Body) (freshUuid : String) : String :=
  match body.event_id with
  | some e => if e = "" then freshUuid else e
  | none => freshUuid

/-- The full ingestion pipeline of routes/webhook.ts in source order: header
presence, signature verification (the HMAC computation of services/signature.ts is
injected as the parameter verifySig, mirroring the import), freshness, replay
suppression, rate limiting, routing.  freshUuid stands for the crypto.randomUUID()
drawn on line 55 when the body carries no (or an empty, JS-falsy) event_id. -/
def ingest (verifySig : Body → ℤ → String → Bool) (st : RelayState)
    (relayId : String) (signatureHeader : Option String) (timestampHeader : Option ℤ)
    (body : Body) (now : ℤ) (freshUuid : String) : DeliveryResult × RelayState :=
  match signatureHeader, timestampHeader with
  | some signature, some timestamp =>
      if ¬ verifySig body timestamp signature then (DeliveryResult.unauthorized, st)
      else if MAX_AGE_MS < |now - timestamp| then (DeliveryResult.unauthorized, st)
      else
        let eventId := eventIdOf body freshUuid
        match preventReplay st.replay eventId now with
        | Except.error _ => (DeliveryResult.duplicateEvent, st)
        | Except.ok replay2 =>
            let st1 := { st with replay := replay2 }
            match checkRateLimit st1.rate relayId now with
            | (Except.error ttl, rate2) =>
                (DeliveryResult.rateLimitExceeded ttl, { st1 with rate := rate2 })
            | (Except.ok _, rate2) =>
                sendWebhook { st1 with rate := rate2 } relayId
                  { id := eventId, signature := signature, payload := body } now
  | _, _ => (DeliveryResult.unauthorized, st)

/-! ## Replay guard as two separately scheduled Redis calls (services/replay.ts)

preventReplay awaits redis.exists and then, separately, redis.setex.  Between the
two awaits another concurrent ingestion of the same event id may be scheduled.  A
call is modelled as a two-step task; a schedule interleaves the steps of two tasks
working on the same event id and shared store. -/

/-- Progress of one preventReplay call: pc 0 = about to run the EXISTS check,
pc 1 = check passed, about to run SETEX, pc 2 = finished.  raised records a thrown
ReplayError. -/
structure ReplayTask where
  pc : ℕ
  raised : Bool
  deriving DecidableEq, Repr

/-- A preventReplay call that has not started yet. -/
def ReplayTask.start : ReplayTask := { pc := 0, raised := false }

/-- One step of a preventReplay call against the shared store: the EXISTS check
(throwing ReplayError if the marker is present), or the SETEX marking. -/
def stepReplayTask (store : ReplayStore) (eventId : String) (now : ℤ)
    (t : ReplayTask) : ReplayTask × ReplayStore :=
  match t.pc with
  | 0 =>
      if replayExists store eventId now then ({ pc := 2, raised := true }, store)
      else ({ pc := 1, raised := false }, store)
  | 1 => ({ pc := 2, raised := t.raised }, (eventId, now + DEDUP_TTL_MS) :: store)
  | _ => (t, store)

/-- Run two concurrent preventReplay calls for the same event id under a schedule:
false schedules a step of the first task, true a step of the second. -/
def runReplaySchedule (eventId : String) (now : ℤ) :
    List Bool → ReplayTask × ReplayTask → ReplayStore →
    ReplayTask × ReplayTask × ReplayStore
  | [], ts, store => (ts.1, ts.2, store)
  | false :: rest, ts, store =>
      let r := stepReplayTask store eventId now ts.1
      runReplaySchedule eventId now rest (r.1, ts.2) r.2
  | true :: rest, ts, store =>
      let r := stepReplayTask store eventId now ts.2
      runReplaySchedule eventId now rest (ts.1, r.1) r.2

/-- A call passed the replay gate: it finished without raising ReplayError. -/
def passedGate (t : ReplayTask) : Bool := decide (t.pc = 2) && !t.raised

/-! ## Client SDK (node-sdk WebhookRelay.ts, utils/retry.ts) -/

/-- The SDK options relevant to reconnection (WebhookRelay.ts lines 30-39):
autoReconnect defaults to true, maxReconnectAttempts defaults to Infinity
(modelled as none). -/
structure ClientOptions where
  autoReconnect : Bool
  maxReconnectAttempts : Option ℕ
  deriving DecidableEq, Repr

/-- The client state machine fields of WebhookRelay (lines 17-24). -/
structure ClientState where
  connected : Bool
  reconnectAttempt : ℕ
  shouldReconnect : Bool
  heartbeatOn : Bool
  deriving DecidableEq, Repr

/-- Field values set by the WebhookRelay constructor. -/
def ClientState.init : ClientState :=
  { connected := false, reconnectAttempt := 0, shouldReconnect := true,
    heartbeatOn := false }

/-- Observable effects of the client handlers: events emitted to the caller,
the rejection of the connect promise, and the start of a fresh connect inside
reconnect.  The delay drawn for a reconnect is not modelled; reconnectingEvent
carries the attempt number. -/
inductive ClientOutput where
  | errorEvent
  | rejectedPromise
  | disconnectedEvent
  | reconnectingEvent (attempt : ℕ)
  | connectStarted
  deriving DecidableEq, Repr

/-- WebhookRelay.reconnect (lines 297-327): bail out with an error once
maxReconnectAttempts is reached, otherwise bump the counter, emit reconnecting and
start a new connect after the backoff delay. -/
def reconnect (opts : ClientOptions) (s : ClientState) :
    ClientState × List ClientOutput :=
  let maxReached := match opts.maxReconnectAttempts with
    | none => false
    | some m => m ≤ s.reconnectAttempt
  if maxReached then (s, [ClientOutput.errorEvent])
  else
    let s2 := { s with reconnectAttempt := s.reconnectAttempt + 1 }
    (s2, [ClientOutput.reconnectingEvent s2.reconnectAttempt, ClientOutput.connectStarted])

/-- WebhookRelay.handleAuthError (lines 187-192): emit an error event and reject
the pending connect promise.  No field of the state machine is touched; in
particular shouldReconnect stays as it was. -/
def handleAuthError (s : ClientState) : ClientState × List ClientOutput :=
  (s, [ClientOutput.errorEvent, ClientOutput.rejectedPromise])

/-- WebhookRelay.handleClose (lines 272-292): clear connected and the heartbeat
timer, emit disconnected, then auto-reconnect when shouldReconnect and
autoReconnect both hold. -/
def handleClose (opts : ClientOptions) (s : ClientState) :
    ClientState × List ClientOutput :=
  let s1 := { s with connected := false, heartbeatOn := false }
  if s1.shouldReconnect && opts.autoReconnect then
    let r := reconnect opts s1
    (r.1, ClientOutput.disconnectedEvent :: r.2)
  else (s1, [ClientOutput.disconnectedEvent])

/-- WebhookRelay.disconnect (lines 99-114): the caller-initiated terminal stop. -/
def clientDisconnect (s : ClientState) : ClientState :=
  { s with shouldReconnect := false, heartbeatOn := false, connected := false }

/-- Whether a handler run initiated a reconnect attempt. -/
def reconnectInitiated (outs : List ClientOutput) : Bool :=
  outs.any fun o => match o with
    | ClientOutput.reconnectingEvent _ => true
    | _ => false

/-- exponentialBackoff of utils/retry.ts.  rand stands for the Math.random() draw;
numbers are modelled as rationals and Math.floor as the integer floor. -/
def exponentialBackoff (attempt : ℕ) (baseDelay : ℚ) (rand : ℚ) : ℤ :=
  let maxDelay : ℚ := 30000
  let delay := min (baseDelay * 2 ^ (attempt - 1)) maxDelay
  let jitter := delay * (2 / 10) * (rand - 1 / 2)
  ⌊delay + jitter⌋

/-! ## Endpoint encryption (AES-256-GCM, crypto module of the relay server)

encryptEndpoint and decryptEndpoint are modelled at the byte level with the GCM
mode structure made explicit: encryption XORs the plaintext with the CTR keystream
derived from key and nonce, and the authentication tag is a function of key, nonce
and ciphertext.  The AES block computation inside both is kept abstract: the
keystream generator ks and the tag function tagF are parameters, the same on the
encrypting and the decrypting side.  Strings are byte lists (UTF-8 for the
endpoint value) or character lists (the hex wire form). -/

/-- One hex digit, lowercase, as produced by Buffer.toString with hex. -/
def hexDigitChar (n : ℕ) : Char :=
  if n < 10 then Char.ofNat (48 + n) else Char.ofNat (87 + n)

/-- Value of a hex digit character as read by Buffer.from with hex. -/
def hexCharVal (c : Char) : ℕ :=
  if 48 ≤ c.toNat ∧ c.toNat ≤ 57 then c.toNat - 48
  else if 97 ≤ c.toNat ∧ c.toNat ≤ 102 then c.toNat - 87
  else if 65 ≤ c.toNat ∧ c.toNat ≤ 70 then c.toNat - 55
  else 0

/-- Buffer.toString hex encoding of a byte list. -/
def bytesToHex : List ℕ → List Char
  | [] => []
  | b :: bs => hexDigitChar (b / 16) :: hexDigitChar (b % 16) :: bytesToHex bs

/-- Buffer.from hex decoding of a character list. -/
def hexToBytes : List Char → List ℕ
  | c1 :: c2 :: rest => (hexCharVal c1 * 16 + hexCharVal c2) :: hexToBytes rest
  | _ => []

/-- CTR-mode XOR of a byte list with the keystream, starting at block index i. -/
def ctrXor (ks : ℕ → ℕ) : ℕ → List ℕ → List ℕ
  | _, [] => []
  | i, b :: bs => (b ^^^ ks i) :: ctrXor ks (i + 1) bs

/-- JS String.prototype.split at the colon separator. -/
def splitColonAux : List Char → List Char → List (List Char)
  | [], acc => [acc.reverse]
  | c :: cs, acc =>
      if c = ':' then acc.reverse :: splitColonAux cs []
      else splitColonAux cs (c :: acc)

/-- Split a character list on colons. -/
def splitColon (s : List Char) : List (List Char) := splitColonAux s []

/-- encryptEndpoint of the crypto module: decode the hex key, encrypt the endpoint
bytes under the fresh 12-byte nonce iv, compute the authentication tag, and emit
the colon-joined hex fields nonce, tag, ciphertext. -/
def encryptEndpoint (ks : List ℕ → List ℕ → ℕ → ℕ)
    (tagF : List ℕ → List ℕ → List ℕ → List ℕ)
    (endpoint : List ℕ) (key : List Char) (iv : List ℕ) : List Char :=
  let keyBuffer := hexToBytes key
  let encrypted := ctrXor (ks keyBuffer iv) 0 endpoint
  let authTag := tagF keyBuffer iv encrypted
  bytesToHex iv ++ ':' :: (bytesToHex authTag ++ ':' :: bytesToHex encrypted)

/-- decryptEndpoint of the crypto module: split the wire form at colons into the
three fields (destructuring takes the first three parts), hex-decode them, verify
the authentication tag (decipher.final throws on mismatch, modelled as none), and
XOR with the same keystream. -/
def decryptEndpoint (ks : List ℕ → List ℕ → ℕ → ℕ)
    (tagF : List ℕ → List ℕ → List ℕ → List ℕ)
    (encryptedData : List Char) (key : List Char) : Option (List ℕ) :=
  let keyBuffer := hexToBytes key
  match splitColon encryptedData with
  | ivHex :: authTagHex :: encrypted :: _ =>
      let iv := hexToBytes ivHex
      let authTag := hexToBytes authTagHex
      let ct := hexToBytes encrypted
      if tagF keyBuffer iv ct = authTag then some (ctrXor (ks keyBuffer iv) 0 ct)
      else none
  | _ => none

/-! ## Helper lemmas -/

lemma lookupAssoc_none_removeAssoc {α : Type} (l : List (String × α)) (key : String)
    (h : lookupAssoc l key = none) : removeAssoc l key = l := by
  induction l with
  | nil => rfl
  | cons p rest ih =>
      obtain ⟨k, v⟩ := p
      by_cases hk : k = key
      · simp [lookupAssoc, hk] at h
      · simp only [removeAssoc, if_neg hk]
        simp only [lookupAssoc, if_neg hk] at h
        rw [ih h]

lemma lookupAssoc_setAssoc_self {α : Type} (l : List (String × α)) (key : String)
    (v : α) : lookupAssoc (setAssoc l key v) key = some v := by
  simp [setAssoc, lookupAssoc]

lemma countP_removeAssoc {α : Type} (l : List (String × α)) (key : String) :
    (removeAssoc l key).countP (fun p => decide (p.1 = key)) = 0 := by
  induction l with
  | nil => rfl
  | cons p rest ih =>
      obtain ⟨k, v⟩ := p
      by_cases hk : k = key
      · simpa [removeAssoc, hk] using ih
      · simpa [removeAssoc, hk, List.countP_cons] using ih

lemma sendWebhook_result (st : RelayState) (relayId : String) (event : EventMsg)
    (now : ℤ) :
    (sendWebhook st relayId event now).1 = DeliveryResult.delivered ∨
    (sendWebhook st relayId event now).1 = DeliveryResult.queued := by
  unfold sendWebhook
  cases lookupAssoc st.connections relayId <;> simp

lemma sendWebhook_replay (st : RelayState) (relayId : String) (event : EventMsg)
    (now : ℤ) : (sendWebhook st relayId event now).2.replay = st.replay := by
  unfold sendWebhook
  cases lookupAssoc st.connections relayId <;> simp

/-- The counter value seen by Redis INCR before incrementing: the stored count if
the key is live, 0 otherwise. -/
def liveRateCount (rate : RateStore) (key : String) (now : ℤ) : ℕ :=
  match lookupAssoc rate key with
  | some e =>
      match e.expiry with
      | some exp => if now < exp then e.count else 0
      | none => e.count
  | none => 0

lemma redisIncr_count (rate : RateStore) (key : String) (now : ℤ) :
    (redisIncr rate key now).1 = liveRateCount rate key now + 1 := by
  unfold redisIncr liveRateCount
  cases h : lookupAssoc rate key with
  | none => simp
  | some e =>
      obtain ⟨c, ex⟩ := e
      cases ex with
      | none => simp
      | some exp => by_cases hn : now < exp <;> simp [hn]

/-! ## C5: exponential backoff bounds -/

/-- C5 (corrected).  For attempt n at least 1, base delay positive, random draw in
the unit interval, and the capped delay min of base times 2 to the n minus 1 and
30000 at least 10 ms, the computed backoff lies within 0.8 and 1.2 times the
capped delay.  The extra lower bound of 10 ms on the capped delay is forced by the
Math.floor in retry.ts, which for a sub-10-ms capped delay can push the result
below 0.8 times the capped delay (see the counterexample). -/
theorem exponentialBackoff_within_bounds (n : ℕ) (base rand : ℚ)
    (hn : 1 ≤ n) (hb : 0 < base) (hr0 : 0 ≤ rand) (hr1 : rand < 1)
    (hm : 10 ≤ min (base * 2 ^ (n - 1)) 30000) :
    4 / 5 * min (base * 2 ^ (n - 1)) 30000 ≤ (exponentialBackoff n base rand : ℚ) ∧
    (exponentialBackoff n base rand : ℚ) ≤ 6 / 5 * min (base * 2 ^ (n - 1)) 30000 := by
  set d : ℚ := min (base * 2 ^ (n - 1)) 30000 with hd
  have hxval : exponentialBackoff n base rand = ⌊d + d * (2 / 10) * (rand - 1 / 2)⌋ := rfl
  set x : ℚ := d + d * (2 / 10) * (rand - 1 / 2) with hx
  clear_value d x
  have h1 : (⌊x⌋ : ℚ) ≤ x := Int.floor_le x
  have h2 : x - 1 < (⌊x⌋ : ℚ) := Int.sub_one_lt_floor x
  have hd0 : (0 : ℚ) ≤ d := le_trans (by norm_num) hm
  have hprod0 : (0 : ℚ) ≤ d * rand := mul_nonneg hd0 hr0
  have hprod1 : d * rand ≤ d * 1 := mul_le_mul_of_nonneg_left hr1.le hd0
  have hxlow : 9 / 10 * d - 1 ≤ x - 1 := by rw [hx]; nlinarith
  have hxhigh : x ≤ 11 / 10 * d := by rw [hx]; nlinarith
  constructor
  · rw [hxval]
    linarith
  · rw [hxval]
    linarith

/-- C5 witness: the bounds theorem applied at attempt 1, base 1000 ms, random
draw one half. -/
theorem exponentialBackoff_within_bounds_witness :
    4 / 5 * min ((1000 : ℚ) * 2 ^ (1 - 1)) 30000 ≤ (exponentialBackoff 1 1000 (1 / 2) : ℚ) ∧
    (exponentialBackoff 1 1000 (1 / 2) : ℚ) ≤ 6 / 5 * min ((1000 : ℚ) * 2 ^ (1 - 1)) 30000 :=
  exponentialBackoff_within_bounds 1 1000 (1 / 2) (le_refl 1) (by norm_num)
    (by norm_num) (by norm_num) (by norm_num)

/-- C5 counterexample: at attempt 1 with base delay 1 ms and random draw 0 — an
instance of the claim with n at least 1, base positive and the draw in the unit
interval — the computed delay is floor of 0.9, that is 0, which is strictly below
0.8 times the capped delay min of 1 and 30000, so the claimed interval is missed. -/
theorem exponentialBackoff_outside_claimed_interval :
    1 ≤ (1 : ℕ) ∧ (0 : ℚ) < 1 ∧ (0 : ℚ) ≤ 0 ∧ (0 : ℚ) < 1 ∧
    (exponentialBackoff 1 1 0 : ℚ) < 4 / 5 * min ((1 : ℚ) * 2 ^ (1 - 1)) 30000 := by
  have h9 : exponentialBackoff 1 1 0 = ⌊(9 / 10 : ℚ)⌋ := by
    unfold exponentialBackoff
    norm_num [min_def]
  have hval : exponentialBackoff 1 1 0 = 0 := by
    rw [h9, Int.floor_eq_iff] <;> norm_num
  refine ⟨le_refl 1, by norm_num, le_refl 0, by norm_num, ?_⟩
  rw [hval]
  norm_num [min_def]

/-! ## C2: the replay gate is not an atomic test-and-set -/

/-- C2 (code bug).  The spec requires the existence check and the marking of the
replay guard to be one atomic step so that of two concurrent ingestions of the
same event id at most one passes the gate.  In services/replay.ts the check
(redis.exists) and the marking (redis.setex) are two separately awaited calls:
under the interleaving check-1, check-2, mark-1, mark-2 both concurrent
preventReplay calls for the same event id pass the gate (neither raises
ReplayError).  Under the sequential schedule the gate does work: the second call
raises.  This theorem evaluates both schedules from an empty store. -/
theorem preventReplay_race_both_pass :
    (passedGate (runReplaySchedule "evt-1" 0 [false, true, false, true]
        (ReplayTask.start, ReplayTask.start) []).1 = true ∧
      passedGate (runReplaySchedule "evt-1" 0 [false, true, false, true]
        (ReplayTask.start, ReplayTask.start) []).2.1 = true) ∧
    passedGate (runReplaySchedule "evt-1" 0 [false, false, true, true]
        (ReplayTask.start, ReplayTask.start) []).2.1 = false := by
  decide

/-! ## C4: client behaviour after an auth error -/

/-- C4 counterexample.  From the freshly constructed client state (shouldReconnect
true), receiving auth_error while authenticating and then observing the channel
close does initiate a reconnect attempt when autoReconnect is on (the default,
with unlimited attempts) — the claim that no reconnect attempt is ever initiated
after an auth error, regardless of later channel-close events, is false on the
code: handleAuthError leaves shouldReconnect set, and handleClose then calls
reconnect. -/
theorem authError_then_close_initiates_reconnect :
    reconnectInitiated
      (handleClose { autoReconnect := true, maxReconnectAttempts := none }
        (handleAuthError ClientState.init).1).2 = true := by
  decide

/-- C4 (corrected).  After an auth_error frame the client surfaces a fatal error
to the caller (emits an error event and rejects the pending connect promise) and
the auth-error handler itself initiates no reconnect and changes no state — but it
does not disable auto-reconnect: with shouldReconnect still true, autoReconnect on
and unlimited attempts, a later channel-close event does initiate a reconnect
attempt. -/
theorem handleAuthError_fatal_but_reconnect_armed (s : ClientState)
    (opts : ClientOptions) (hs : s.shouldReconnect = true)
    (ha : opts.autoReconnect = true) (hm : opts.maxReconnectAttempts = none) :
    (handleAuthError s).1 = s ∧
    (handleAuthError s).2 = [ClientOutput.errorEvent, ClientOutput.rejectedPromise] ∧
    reconnectInitiated (handleAuthError s).2 = false ∧
    reconnectInitiated (handleClose opts (handleAuthError s).1).2 = true := by
  refine ⟨rfl, rfl, rfl, ?_⟩
  simp [handleAuthError, handleClose, reconnect, reconnectInitiated, hs, ha, hm]

/-- C4 witness: the corrected behaviour at the initial client state with the
default options. -/
theorem handleAuthError_fatal_but_reconnect_armed_witness :
    (handleAuthError ClientState.init).1 = ClientState.init ∧
    (handleAuthError ClientState.init).2 = [ClientOutput.errorEvent, ClientOutput.rejectedPromise] ∧
    reconnectInitiated (handleAuthError ClientState.init).2 = false ∧
    reconnectInitiated
      (handleClose { autoReconnect := true, maxReconnectAttempts := none }
        (handleAuthError ClientState.init).1).2 = true :=
  handleAuthError_fatal_but_reconnect_armed ClientState.init
    { autoReconnect := true, maxReconnectAttempts := none } rfl rfl rfl

/-! ## C6: acknowledgment handling -/

/-- C6 counterexample.  A pending-acknowledgment record stored for agent-A and
event evt-1 is removed by an ack from the different relayId agent-B: the claim
that a relayId-mismatched ack leaves every pending record unchanged is false on
the code, which deletes the Redis key by event id alone. -/
theorem handleAck_mismatched_relayId_still_removes :
    ("agent-B" : String) ≠ "agent-A" ∧
    (handleAck
      { RelayState.init with
        acks := [("evt-1", { relayId := "agent-A", sentAt := 0, expiry := 30000 })] }
      "agent-B" "evt-1").acks = [] := by
  constructor
  · decide
  · rfl

/-- C6 (corrected).  WebSocketManager.handleAck removes the pending-ack record
keyed by the acked event id regardless of the relayId recorded in it (the relayId
argument is only logged); an ack whose event id matches no pending record is
ignored without error and leaves the server state unchanged. -/
theorem handleAck_removes_by_eventId (st : RelayState) (relayId eventId : String) :
    (handleAck st relayId eventId).acks = removeAssoc st.acks eventId ∧
    (lookupAssoc st.acks eventId = none → handleAck st relayId eventId = st) := by
  refine ⟨rfl, fun h => ?_⟩
  unfold handleAck
  rw [lookupAssoc_none_removeAssoc st.acks eventId h]

/-- C6 witness: an ack for an unknown event id leaves a concrete one-record state
unchanged, and the removal-by-event-id equation holds there. -/
theorem handleAck_removes_by_eventId_witness :
    (handleAck
      { RelayState.init with
        acks := [("evt-1", { relayId := "agent-A", sentAt := 0, expiry := 30000 })] }
      "agent-A" "evt-2").acks =
      removeAssoc [("evt-1", { relayId := "agent-A", sentAt := 0, expiry := 30000 })] "evt-2" ∧
    (lookupAssoc
        ([("evt-1", { relayId := "agent-A", sentAt := 0, expiry := 30000 })] :
          List (String × PendingAck)) "evt-2" = none →
      handleAck
        { RelayState.init with
          acks := [("evt-1", { relayId := "agent-A", sentAt := 0, expiry := 30000 })] }
        "agent-A" "evt-2" =
        { RelayState.init with
          acks := [("evt-1", { relayId := "agent-A", sentAt := 0, expiry := 30000 })] }) :=
  handleAck_removes_by_eventId
    { RelayState.init with
      acks := [("evt-1", { relayId := "agent-A", sentAt := 0, expiry := 30000 })] }
    "agent-A" "evt-2"

/-! ## C1: connection supersession in the registry -/

lemma countP_setAssoc {α : Type} (l : List (String × α)) (key : String) (v : α) :
    (setAssoc l key v).countP (fun p => decide (p.1 = key)) = 1 := by
  simp [setAssoc, List.countP_cons, countP_removeAssoc]

/-- C1 counterexample.  Registering a second authenticated connection (socket 2)
for the same relayId as a live first connection (socket 1) replaces the first in
the registry map but closes no socket: the set of closed sockets stays empty, so
the part of the claim that says the first connection's channel is closed is false
on the code — handleConnection only calls connections.set. -/
theorem registerConnection_does_not_close_superseded :
    (registerConnection
        (registerConnection RelayState.init "agent-r" "sess-1" 1 100)
        "agent-r" "sess-2" 2 200).closedSockets = [] ∧
    lookupAssoc
      (registerConnection
        (registerConnection RelayState.init "agent-r" "sess-1" 1 100)
        "agent-r" "sess-2" 2 200).connections "agent-r" =
      some { relayId := "agent-r", socketId := 2, sessionId := "sess-2",
             connectedAt := 200, lastPing := 200 } := by
  refine ⟨rfl, ?_⟩
  decide

/-- C1 (corrected).  Registering a second authenticated connection for the same
relayId replaces the first in the registry map — the map then holds exactly one
entry for that relayId, namely the new connection — and subsequent deliveries for
that relayId go to the new connection's socket (sendWebhook reports delivered and
appends the webhook frame for the new socket), so the superseded connection
receives no further deliveries; but the first connection's channel is not closed
by the registration. -/
theorem registerConnection_supersedes (st : RelayState)
    (relayId sess1 sess2 : String) (sock1 sock2 : ℕ) (now1 now2 now3 : ℤ)
    (event : EventMsg) (s1 s2 : RelayState)
    (h1 : s1 = registerConnection st relayId sess1 sock1 now1)
    (h2 : s2 = registerConnection s1 relayId sess2 sock2 now2) :
    lookupAssoc s2.connections relayId =
      some { relayId := relayId, socketId := sock2, sessionId := sess2,
             connectedAt := now2, lastPing := now2 } ∧
    s2.connections.countP (fun p => decide (p.1 = relayId)) = 1 ∧
    s2.closedSockets = st.closedSockets ∧
    (sendWebhook s2 relayId event now3).1 = DeliveryResult.delivered ∧
    (sendWebhook s2 relayId event now3).2.sentFrames =
      s2.sentFrames ++
        [(sock2, ServerFrame.webhook event.id now3 event.signature event.payload)] := by
  subst h1 h2
  have hl : lookupAssoc
      (registerConnection (registerConnection st relayId sess1 sock1 now1)
        relayId sess2 sock2 now2).connections relayId =
      some { relayId := relayId, socketId := sock2, sessionId := sess2,
             connectedAt := now2, lastPing := now2 } := by
    simp [registerConnection, lookupAssoc_setAssoc_self]
  refine ⟨hl, ?_, rfl, ?_, ?_⟩
  · simp [registerConnection, countP_setAssoc]
  · simp [sendWebhook, hl]
  · simp [sendWebhook, hl]

/-- C1 witness: the supersession theorem applied to two concrete registrations
from the empty state. -/
theorem registerConnection_supersedes_witness :
    lookupAssoc
      (registerConnection (registerConnection RelayState.init "agent-r" "sess-1" 1 100)
        "agent-r" "sess-2" 2 200).connections "agent-r" =
      some { relayId := "agent-r", socketId := 2, sessionId := "sess-2",
             connectedAt := 200, lastPing := 200 } ∧
    (registerConnection (registerConnection RelayState.init "agent-r" "sess-1" 1 100)
        "agent-r" "sess-2" 2 200).connections.countP
      (fun p => decide (p.1 = "agent-r")) = 1 ∧
    (registerConnection (registerConnection RelayState.init "agent-r" "sess-1" 1 100)
        "agent-r" "sess-2" 2 200).closedSockets = RelayState.init.closedSockets ∧
    (sendWebhook
      (registerConnection (registerConnection RelayState.init "agent-r" "sess-1" 1 100)
        "agent-r" "sess-2" 2 200) "agent-r"
      { id := "evt-1", signature := "sig", payload := { event_id := some "evt-1", data := "d" } }
      300).1 = DeliveryResult.delivered ∧
    (sendWebhook
      (registerConnection (registerConnection RelayState.init "agent-r" "sess-1" 1 100)
        "agent-r" "sess-2" 2 200) "agent-r"
      { id := "evt-1", signature := "sig", payload := { event_id := some "evt-1", data := "d" } }
      300).2.sentFrames =
      (registerConnection (registerConnection RelayState.init "agent-r" "sess-1" 1 100)
        "agent-r" "sess-2" 2 200).sentFrames ++
        [(2, ServerFrame.webhook "evt-1" 300 "sig" { event_id := some "evt-1", data := "d" })] :=
  registerConnection_supersedes RelayState.init "agent-r" "sess-1" "sess-2" 1 2 100 200 300
    { id := "evt-1", signature := "sig", payload := { event_id := some "evt-1", data := "d" } }
    _ _ rfl rfl

/-! ## C8: missing headers short-circuit with no state change -/

/-- C8 (confirmed).  When the signature header or the timestamp header is missing,
the pipeline returns unauthorized immediately and the returned state is the input
state: the replay store, the rate-limit counters, the offline queue and the
pending-acknowledgment records are all untouched. -/
theorem ingest_missing_header_no_effect (verifySig : Body → ℤ → String → Bool)
    (st : RelayState) (relayId : String) (sigH : Option String) (tsH : Option ℤ)
    (body : Body) (now : ℤ) (uuid : String)
    (h : sigH = none ∨ tsH = none) :
    ingest verifySig st relayId sigH tsH body now uuid =
      (DeliveryResult.unauthorized, st) := by
  rcases h with h | h
  · subst h; cases tsH <;> rfl
  · subst h; cases sigH <;> rfl

/-- C8 witness: a request with no signature header against the empty state. -/
theorem ingest_missing_header_no_effect_witness :
    ((none : Option String) = none ∨ (some (0 : ℤ)) = none) ∧
    ingest (fun _ _ _ => true) RelayState.init "agent-r" none (some 0)
        { event_id := some "evt-1", data := "d" } 0 "uuid-1" =
      (DeliveryResult.unauthorized, RelayState.init) :=
  ⟨Or.inl rfl,
    ingest_missing_header_no_effect (fun _ _ _ => true) RelayState.init "agent-r"
      none (some 0) { event_id := some "evt-1", data := "d" } 0 "uuid-1" (Or.inl rfl)⟩

/-! ## C7: the freshness gate -/

lemma ingest_fresh_not_unauthorized (verifySig : Body → ℤ → String → Bool)
    (st : RelayState) (relayId sig : String) (ts now : ℤ) (body : Body)
    (uuid : String) (hv : verifySig body ts sig = true)
    (hf : ¬ MAX_AGE_MS < |now - ts|) :
    (ingest verifySig st relayId (some sig) (some ts) body now uuid).1 ≠
      DeliveryResult.unauthorized := by
  simp only [ingest]
  rw [if_neg (by simp [hv]), if_neg hf]
  cases hpr : preventReplay st.replay (eventIdOf body uuid) now with
  | error e => simp
  | ok replay2 =>
      simp only []
      rcases hcr : checkRateLimit ({ st with replay := replay2 } : RelayState).rate relayId now
        with ⟨res, rate2⟩
      cases res with
      | error ttl => simp [hcr]
      | ok info =>
          simp only [hcr]
          rcases sendWebhook_result { st with replay := replay2, rate := rate2 } relayId
              { id := eventIdOf body uuid, signature := sig, payload := body } now with h | h <;>
            simp [h]

/-- C7 (confirmed).  With both headers present and the signature verifying, the
freshness gate accepts exactly the requests whose timestamp ts satisfies the
bound that now minus ts in absolute value is at most 5 minutes, rejecting the
rest (stale or future-skewed) as unauthorized; in particular a timestamp exactly
5 minutes 1 second in the past is rejected and one exactly 4 minutes 59 seconds
in the past is accepted. -/
theorem ingest_freshness_gate (verifySig : Body → ℤ → String → Bool)
    (st : RelayState) (relayId sig : String) (ts now : ℤ) (body : Body)
    (uuid : String) (hv : verifySig body ts sig = true) :
    ((ingest verifySig st relayId (some sig) (some ts) body now uuid).1 =
        DeliveryResult.unauthorized ↔ MAX_AGE_MS < |now - ts|) ∧
    (ts = now - 301000 →
      (ingest verifySig st relayId (some sig) (some ts) body now uuid).1 =
        DeliveryResult.unauthorized) ∧
    (ts = now - 299000 →
      (ingest verifySig st relayId (some sig) (some ts) body now uuid).1 ≠
        DeliveryResult.unauthorized) := by
  have hiff : (ingest verifySig st relayId (some sig) (some ts) body now uuid).1 =
      DeliveryResult.unauthorized ↔ MAX_AGE_MS < |now - ts| := by
    by_cases hf : MAX_AGE_MS < |now - ts|
    · refine iff_of_true ?_ hf
      simp only [ingest]
      rw [if_neg (by simp [hv]), if_pos hf]
    · exact iff_of_false
        (ingest_fresh_not_unauthorized verifySig st relayId sig ts now body uuid hv hf) hf
  refine ⟨hiff, fun h => ?_, fun h => ?_⟩
  · apply hiff.mpr
    subst h
    simp only [sub_sub_cancel]
    norm_num [MAX_AGE_MS]
  · rw [Ne, hiff]
    subst h
    simp only [sub_sub_cancel]
    norm_num [MAX_AGE_MS]

/-! ## C3 and C10: replay suppression through the full pipeline -/

lemma checkRateLimit_fst_ok (rate : RateStore) (key : String) (now : ℤ)
    (h : liveRateCount rate key now < RATE_LIMIT_MAX) :
    ∃ info, (checkRateLimit rate key now).1 = Except.ok info := by
  unfold checkRateLimit
  rw [if_neg]
  · exact ⟨_, rfl⟩
  · rw [redisIncr_count]
    omega

/-- Outcome and replay-store shape of an accepted first submission: with headers
present, signature verifying, timestamp fresh, the resolved event id unmarked and
rate budget remaining, ingest reports delivered or queued and the replay store
gains exactly the marker for the resolved event id with the 10-minute expiry. -/
lemma ingest_accept (verifySig : Body → ℤ → String → Bool) (st : RelayState)
    (relayId sig : String) (ts now : ℤ) (body : Body) (uuid e : String)
    (hv : verifySig body ts sig = true) (hf : ¬ MAX_AGE_MS < |now - ts|)
    (hid : eventIdOf body uuid = e)
    (hfresh : replayExists st.replay e now = false)
    (hrate : liveRateCount st.rate relayId now < RATE_LIMIT_MAX) :
    ((ingest verifySig st relayId (some sig) (some ts) body now uuid).1 =
        DeliveryResult.delivered ∨
      (ingest verifySig st relayId (some sig) (some ts) body now uuid).1 =
        DeliveryResult.queued) ∧
    (ingest verifySig st relayId (some sig) (some ts) body now uuid).2.replay =
      (e, now + DEDUP_TTL_MS) :: st.replay := by
  simp only [ingest]
  rw [if_neg (by simp [hv]), if_neg hf, hid]
  have hpr : preventReplay st.replay e now =
      Except.ok ((e, now + DEDUP_TTL_MS) :: st.replay) := by
    simp [preventReplay, hfresh]
  rw [hpr]
  simp only []
  rcases hcr : checkRateLimit ({ st with replay := (e, now + DEDUP_TTL_MS) :: st.replay } :
      RelayState).rate relayId now with ⟨res, rate2⟩
  cases res with
  | error ttl =>
      obtain ⟨info, hok⟩ := checkRateLimit_fst_ok st.rate relayId now hrate
      rw [show ({ st with replay := (e, now + DEDUP_TTL_MS) :: st.replay } :
        RelayState).rate = st.rate from rfl] at hcr
      rw [hcr] at hok
      simp at hok
  | ok info =>
      simp only [hcr]
      constructor
      · exact sendWebhook_result _ relayId _ now
      · rw [sendWebhook_replay]

/-- C3 counterexample.  An instance of the claim as stated — two requests with the
same event id evt-1, both passing the signature gate (the injected verifier
accepts) and the freshness gate (timestamp equals now), the id never marked
before, submitted within the TTL — in a reachable state where the rate counter
for the relayId already sits at the cap of 100 inside a live window: the first
request is answered rate_limit_exceeded with the remaining window 60000 ms, not
delivered and not queued, so the claim that the first of the two requests yields
delivered or queued is false on the code.  (The replay stage runs before the rate
limiter, so this first request even burns the event id.) -/
theorem ingest_same_id_first_request_rate_limited :
    (ingest (fun _ _ _ => true)
      { RelayState.init with
        rate := [("agent-r", { count := 100, expiry := some 60000 })] }
      "agent-r" (some "sig") (some 0) { event_id := some "evt-1", data := "d" }
      0 "u1").1 = DeliveryResult.rateLimitExceeded 60000 ∧
    DeliveryResult.rateLimitExceeded 60000 ≠ DeliveryResult.delivered ∧
    DeliveryResult.rateLimitExceeded 60000 ≠ DeliveryResult.queued := by
  refine ⟨?_, by decide, by decide⟩
  decide

/-- C3 (corrected).  For two ingestion requests carrying the same event id, both
passing the signature and freshness gates, submitted one after the other within
the 10-minute replay TTL, and such that at the first request the event id is not
yet marked and the relayId still has rate budget: the first yields delivered or
queued, and the second yields duplicate_event while changing nothing — the server
state after the second request is exactly the state after the first, so no
delivery, queue, rate or replay state is touched by the duplicate. -/
theorem ingest_duplicate_second_rejected (verifySig : Body → ℤ → String → Bool)
    (st : RelayState) (relayId1 relayId2 sig1 sig2 : String)
    (ts1 ts2 now1 now2 : ℤ) (body1 body2 : Body) (uuid1 uuid2 e : String)
    (hv1 : verifySig body1 ts1 sig1 = true) (hv2 : verifySig body2 ts2 sig2 = true)
    (hf1 : ¬ MAX_AGE_MS < |now1 - ts1|) (hf2 : ¬ MAX_AGE_MS < |now2 - ts2|)
    (hid1 : eventIdOf body1 uuid1 = e) (hid2 : eventIdOf body2 uuid2 = e)
    (hfresh : replayExists st.replay e now1 = false)
    (hrate : liveRateCount st.rate relayId1 now1 < RATE_LIMIT_MAX)
    (httl : now2 < now1 + DEDUP_TTL_MS) :
    ((ingest verifySig st relayId1 (some sig1) (some ts1) body1 now1 uuid1).1 =
        DeliveryResult.delivered ∨
      (ingest verifySig st relayId1 (some sig1) (some ts1) body1 now1 uuid1).1 =
        DeliveryResult.queued) ∧
    ingest verifySig
        (ingest verifySig st relayId1 (some sig1) (some ts1) body1 now1 uuid1).2
        relayId2 (some sig2) (some ts2) body2 now2 uuid2 =
      (DeliveryResult.duplicateEvent,
        (ingest verifySig st relayId1 (some sig1) (some ts1) body1 now1 uuid1).2) := by
  obtain ⟨hres, hreplay⟩ :=
    ingest_accept verifySig st relayId1 sig1 ts1 now1 body1 uuid1 e hv1 hf1 hid1 hfresh hrate
  refine ⟨hres, ?_⟩
  generalize hgen : (ingest verifySig st relayId1 (some sig1) (some ts1) body1 now1 uuid1).2 = s1
    at hreplay ⊢
  simp only [ingest]
  rw [if_neg (by simp [hv2]), if_neg hf2, hid2]
  have hex : replayExists s1.replay e now2 = true := by
    rw [hreplay]
    simp [replayExists, httl]
  have hpr : preventReplay s1.replay e now2 = Except.error () := by
    simp [preventReplay, hex]
  rw [hpr]

/-- C3 witness: the corrected idempotence theorem at a concrete pair of requests
with event id evt-1 from the empty state, the second submitted one second after
the first. -/
theorem ingest_duplicate_second_rejected_witness :
    ((ingest (fun _ _ _ => true) RelayState.init "agent-r" (some "sig") (some 0)
        { event_id := some "evt-1", data := "d" } 0 "u1").1 =
        DeliveryResult.delivered ∨
      (ingest (fun _ _ _ => true) RelayState.init "agent-r" (some "sig") (some 0)
        { event_id := some "evt-1", data := "d" } 0 "u1").1 =
        DeliveryResult.queued) ∧
    ingest (fun _ _ _ => true)
        (ingest (fun _ _ _ => true) RelayState.init "agent-r" (some "sig") (some 0)
          { event_id := some "evt-1", data := "d" } 0 "u1").2
        "agent-r" (some "sig") (some 0) { event_id := some "evt-1", data := "d" }
        1000 "u2" =
      (DeliveryResult.duplicateEvent,
        (ingest (fun _ _ _ => true) RelayState.init "agent-r" (some "sig") (some 0)
          { event_id := some "evt-1", data := "d" } 0 "u1").2) :=
  ingest_duplicate_second_rejected (fun _ _ _ => true) RelayState.init
    "agent-r" "agent-r" "sig" "sig" 0 0 0 1000
    { event_id := some "evt-1", data := "d" } { event_id := some "evt-1", data := "d" }
    "u1" "u2" "evt-1" rfl rfl (by decide) (by decide) (by decide) (by decide)
    rfl (by decide) (by decide)

lemma replayExists_eq_false_of_not_mem (store : ReplayStore) (eventId : String)
    (now : ℤ) (h : eventId ∉ store.map Prod.fst) :
    replayExists store eventId now = false := by
  unfold replayExists
  rw [List.any_eq_false]
  intro p hp
  simp only [Bool.and_eq_true, decide_eq_true_eq, not_and]
  intro hpe _
  exact h (List.mem_map.mpr ⟨p, hp, hpe⟩)

/-- Whatever branch the pipeline takes, the replay store either stays as it was or
gains exactly the marker for the resolved event id. -/
lemma ingest_replay_shape (verifySig : Body → ℤ → String → Bool) (st : RelayState)
    (relayId : String) (sigH : Option String) (tsH : Option ℤ) (body : Body)
    (now : ℤ) (uuid : String) :
    (ingest verifySig st relayId sigH tsH body now uuid).2.replay = st.replay ∨
    (ingest verifySig st relayId sigH tsH body now uuid).2.replay =
      (eventIdOf body uuid, now + DEDUP_TTL_MS) :: st.replay := by
  rcases sigH with _ | sig
  · left; cases tsH <;> rfl
  rcases tsH with _ | ts
  · left; rfl
  simp only [ingest]
  by_cases hv : verifySig body ts sig = true
  · rw [if_neg (by simp [hv])]
    by_cases hf : MAX_AGE_MS < |now - ts|
    · rw [if_pos hf]; left; rfl
    · rw [if_neg hf]
      cases hpr : preventReplay st.replay (eventIdOf body uuid) now with
      | error a => left; rfl
      | ok replay2 =>
          have hr2 : replay2 = (eventIdOf body uuid, now + DEDUP_TTL_MS) :: st.replay := by
            unfold preventReplay at hpr
            by_cases he : replayExists st.replay (eventIdOf body uuid) now
            · rw [if_pos he] at hpr; simp at hpr
            · rw [if_neg he] at hpr
              injection hpr with h
              exact h.symm
          right
          simp only []
          rcases hcr : checkRateLimit ({ st with replay := replay2 } : RelayState).rate
              relayId now with ⟨res, rate2⟩
          cases res with
          | error ttl => simp [hcr, hr2]
          | ok info =>
              simp only [hcr]
              rw [sendWebhook_replay]
              simp [hr2]
  · rw [if_pos (by simp [hv])]; left; rfl

/-- A request whose resolved event id is unmarked can never be answered
duplicate_event, whatever the other gates decide. -/
lemma ingest_not_duplicate_of_fresh (verifySig : Body → ℤ → String → Bool)
    (st : RelayState) (relayId : String) (sigH : Option String) (tsH : Option ℤ)
    (body : Body) (now : ℤ) (uuid : String)
    (hfresh : replayExists st.replay (eventIdOf body uuid) now = false) :
    (ingest verifySig st relayId sigH tsH body now uuid).1 ≠
      DeliveryResult.duplicateEvent := by
  rcases sigH with _ | sig
  · cases tsH <;> simp [ingest]
  rcases tsH with _ | ts
  · simp [ingest]
  simp only [ingest]
  by_cases hv : verifySig body ts sig = true
  · rw [if_neg (by simp [hv])]
    by_cases hf : MAX_AGE_MS < |now - ts|
    · rw [if_pos hf]; simp
    · rw [if_neg hf]
      have hpr : preventReplay st.replay (eventIdOf body uuid) now =
          Except.ok ((eventIdOf body uuid, now + DEDUP_TTL_MS) :: st.replay) := by
        simp [preventReplay, hfresh]
      rw [hpr]
      simp only []
      rcases hcr : checkRateLimit
          ({ st with replay := (eventIdOf body uuid, now + DEDUP_TTL_MS) :: st.replay } :
            RelayState).rate relayId now with ⟨res, rate2⟩
      cases res with
      | error ttl => simp [hcr]
      | ok info =>
          simp only [hcr]
          rcases sendWebhook_result
              { st with replay := (eventIdOf body uuid, now + DEDUP_TTL_MS) :: st.replay,
                        rate := rate2 } relayId
              { id := eventIdOf body uuid, signature := sig, payload := body } now with
            h | h <;> simp [h]
  · rw [if_pos (by simp [hv])]; simp

/-- C10 (confirmed).  A request whose body carries no event_id field is keyed by
the freshly drawn random UUID: assuming the drawn UUIDs differ from every
previously marked id (and from each other), such a request is never rejected as
duplicate_event, and resubmitting the identical body is again not rejected as
duplicate_event — the pipeline does not deduplicate bodies without an event id. -/
theorem ingest_no_event_id_not_deduplicated (verifySig : Body → ℤ → String → Bool)
    (st : RelayState) (relayId1 relayId2 : String) (sigH1 sigH2 : Option String)
    (tsH1 tsH2 : Option ℤ) (body : Body) (now1 now2 : ℤ) (uuid1 uuid2 : String)
    (hbody : body.event_id = none)
    (hu1 : uuid1 ∉ st.replay.map Prod.fst)
    (hu2 : uuid2 ∉ st.replay.map Prod.fst)
    (hne : uuid2 ≠ uuid1) :
    (ingest verifySig st relayId1 sigH1 tsH1 body now1 uuid1).1 ≠
      DeliveryResult.duplicateEvent ∧
    (ingest verifySig (ingest verifySig st relayId1 sigH1 tsH1 body now1 uuid1).2
        relayId2 sigH2 tsH2 body now2 uuid2).1 ≠
      DeliveryResult.duplicateEvent := by
  have he1 : eventIdOf body uuid1 = uuid1 := by simp [eventIdOf, hbody]
  have he2 : eventIdOf body uuid2 = uuid2 := by simp [eventIdOf, hbody]
  constructor
  · apply ingest_not_duplicate_of_fresh
    rw [he1]
    exact replayExists_eq_false_of_not_mem _ _ _ hu1
  · apply ingest_not_duplicate_of_fresh
    rw [he2]
    rcases ingest_replay_shape verifySig st relayId1 sigH1 tsH1 body now1 uuid1 with h | h
    · rw [h]
      exact replayExists_eq_false_of_not_mem _ _ _ hu2
    · rw [h, he1]
      apply replayExists_eq_false_of_not_mem
      simp only [List.map_cons]
      intro hmem
      rcases List.mem_cons.mp hmem with h1 | h1
      · exact hne h1
      · exact hu2 h1

/-- C10 witness: two submissions of the same event-id-free body from the empty
state, keyed by the distinct fresh UUIDs u1 and u2. -/
theorem ingest_no_event_id_not_deduplicated_witness :
    (ingest (fun _ _ _ => true) RelayState.init "agent-r" (some "sig") (some 0)
        { event_id := none, data := "d" } 0 "u1").1 ≠
      DeliveryResult.duplicateEvent ∧
    (ingest (fun _ _ _ => true)
        (ingest (fun _ _ _ => true) RelayState.init "agent-r" (some "sig") (some 0)
          { event_id := none, data := "d" } 0 "u1").2
        "agent-r" (some "sig") (some 1000) { event_id := none, data := "d" }
        1000 "u2").1 ≠
      DeliveryResult.duplicateEvent :=
  ingest_no_event_id_not_deduplicated (fun _ _ _ => true) RelayState.init
    "agent-r" "agent-r" (some "sig") (some "sig") (some 0) (some 1000)
    { event_id := none, data := "d" } 0 1000 "u1" "u2" rfl
    (by decide) (by decide) (by decide)

/-! ## C9: endpoint encryption round trip -/

lemma hexCharVal_hexDigitChar (x : ℕ) (h : x < 16) :
    hexCharVal (hexDigitChar x) = x := by
  interval_cases x <;> decide

lemma hexDigitChar_ne_colon (x : ℕ) (h : x < 16) : hexDigitChar x ≠ ':' := by
  interval_cases x <;> decide

lemma hexToBytes_bytesToHex (bs : List ℕ) (h : ∀ b ∈ bs, b < 256) :
    hexToBytes (bytesToHex bs) = bs := by
  induction bs with
  | nil => rfl
  | cons b rest ih =>
      have hb : b < 256 := h b (List.mem_cons_self _ _)
      have h1 : b / 16 < 16 := by omega
      have h2 : b % 16 < 16 := Nat.mod_lt b (by norm_num)
      simp only [bytesToHex, hexToBytes]
      rw [hexCharVal_hexDigitChar _ h1, hexCharVal_hexDigitChar _ h2,
        ih (fun x hx => h x (List.mem_cons_of_mem _ hx))]
      congr 1
      omega

lemma bytesToHex_no_colon (bs : List ℕ) (h : ∀ b ∈ bs, b < 256) :
    ∀ c ∈ bytesToHex bs, c ≠ ':' := by
  induction bs with
  | nil => intro c hc; cases hc
  | cons b rest ih =>
      have hb : b < 256 := h b (List.mem_cons_self _ _)
      intro c hc
      simp only [bytesToHex, List.mem_cons] at hc
      rcases hc with hc | hc | hc
      · subst hc; exact hexDigitChar_ne_colon _ (by omega)
      · subst hc; exact hexDigitChar_ne_colon _ (Nat.mod_lt b (by norm_num))
      · exact ih (fun x hx => h x (List.mem_cons_of_mem _ hx)) c hc

lemma splitColonAux_cons (d : Char) (ds acc : List Char) :
    splitColonAux (d :: ds) acc =
      if d = ':' then acc.reverse :: splitColonAux ds []
      else splitColonAux ds (d :: acc) := rfl

lemma splitColonAux_no_colon (x acc : List Char) (h : ∀ c ∈ x, c ≠ ':') :
    splitColonAux x acc = [acc.reverse ++ x] := by
  induction x generalizing acc with
  | nil => simp [splitColonAux]
  | cons c cs ih =>
      have hc : c ≠ ':' := h c (List.mem_cons_self _ _)
      rw [splitColonAux_cons, if_neg hc,
        ih (c :: acc) (fun d hd => h d (List.mem_cons_of_mem _ hd))]
      simp

lemma splitColonAux_through (x rest acc : List Char) (h : ∀ c ∈ x, c ≠ ':') :
    splitColonAux (x ++ ':' :: rest) acc =
      (acc.reverse ++ x) :: splitColonAux rest [] := by
  induction x generalizing acc with
  | nil => simp [splitColonAux_cons]
  | cons c cs ih =>
      have hc : c ≠ ':' := h c (List.mem_cons_self _ _)
      rw [List.cons_append, splitColonAux_cons, if_neg hc,
        ih (c :: acc) (fun d hd => h d (List.mem_cons_of_mem _ hd))]
      simp

lemma splitColon_three (a b c : List Char) (ha : ∀ ch ∈ a, ch ≠ ':')
    (hb : ∀ ch ∈ b, ch ≠ ':') (hc : ∀ ch ∈ c, ch ≠ ':') :
    splitColon (a ++ ':' :: (b ++ ':' :: c)) = [a, b, c] := by
  unfold splitColon
  rw [splitColonAux_through a _ [] ha]
  rw [splitColonAux_through b _ [] hb]
  rw [splitColonAux_no_colon c [] hc]
  simp

lemma ctrXor_ctrXor (f : ℕ → ℕ) : ∀ (i : ℕ) (bs : List ℕ),
    ctrXor f i (ctrXor f i bs) = bs
  | _, [] => rfl
  | i, b :: bs => by
      simp only [ctrXor, ctrXor_ctrXor f (i + 1) bs]
      rw [Nat.xor_cancel_right]

lemma ctrXor_lt (f : ℕ → ℕ) (hf : ∀ j, f j < 256) :
    ∀ (i : ℕ) (bs : List ℕ), (∀ b ∈ bs, b < 256) → ∀ b ∈ ctrXor f i bs, b < 256
  | _, [], _ => by intro b hb; cases hb
  | i, b :: bs, h => by
      intro x hx
      simp only [ctrXor, List.mem_cons] at hx
      rcases hx with hx | hx
      · subst hx
        have hb : b < 256 := h b (List.mem_cons_self _ _)
        show b ^^^ f i < 2 ^ 8
        exact Nat.bitwise_lt hb (hf i)
      · exact ctrXor_lt f hf (i + 1) bs (fun y hy => h y (List.mem_cons_of_mem _ hy)) x hx

/-- C9 (confirmed).  Decrypting an encryption returns the original endpoint, for
every key, every choice of the fresh nonce, and every instantiation of the
abstract block-cipher keystream and tag functions (with byte-valued outputs, as
AES has): the wire form splits at colons into exactly the three fields hex nonce,
hex authentication tag and hex ciphertext, decryption reconstructs all three, the
recomputed tag matches, and the keystream XOR cancels. -/
theorem encryptEndpoint_decryptEndpoint (ks : List ℕ → List ℕ → ℕ → ℕ)
    (tagF : List ℕ → List ℕ → List ℕ → List ℕ) (endpoint : List ℕ)
    (key : List Char) (iv : List ℕ)
    (hks : ∀ j, ks (hexToBytes key) iv j < 256)
    (htag : ∀ b ∈ tagF (hexToBytes key) iv
        (ctrXor (ks (hexToBytes key) iv) 0 endpoint), b < 256)
    (hend : ∀ b ∈ endpoint, b < 256) (hiv : ∀ b ∈ iv, b < 256) :
    splitColon (encryptEndpoint ks tagF endpoint key iv) =
      [bytesToHex iv,
        bytesToHex (tagF (hexToBytes key) iv (ctrXor (ks (hexToBytes key) iv) 0 endpoint)),
        bytesToHex (ctrXor (ks (hexToBytes key) iv) 0 endpoint)] ∧
    decryptEndpoint ks tagF (encryptEndpoint ks tagF endpoint key iv) key =
      some endpoint := by
  have hct : ∀ b ∈ ctrXor (ks (hexToBytes key) iv) 0 endpoint, b < 256 :=
    ctrXor_lt (ks (hexToBytes key) iv) hks 0 endpoint hend
  have hsplit : splitColon (encryptEndpoint ks tagF endpoint key iv) =
      [bytesToHex iv,
        bytesToHex (tagF (hexToBytes key) iv (ctrXor (ks (hexToBytes key) iv) 0 endpoint)),
        bytesToHex (ctrXor (ks (hexToBytes key) iv) 0 endpoint)] := by
    show splitColon
        (bytesToHex iv ++ ':' ::
          (bytesToHex (tagF (hexToBytes key) iv (ctrXor (ks (hexToBytes key) iv) 0 endpoint)) ++
            ':' :: bytesToHex (ctrXor (ks (hexToBytes key) iv) 0 endpoint))) = _
    exact splitColon_three _ _ _ (bytesToHex_no_colon iv hiv)
      (bytesToHex_no_colon _ htag) (bytesToHex_no_colon _ hct)
  refine ⟨hsplit, ?_⟩
  unfold decryptEndpoint
  rw [hsplit]
  simp only [hexToBytes_bytesToHex iv hiv, hexToBytes_bytesToHex _ htag,
    hexToBytes_bytesToHex _ hct]
  rw [if_true, ctrXor_ctrXor]

/-- C9 witness: the round trip at a concrete endpoint, key, nonce, keystream and
tag function. -/
theorem encryptEndpoint_decryptEndpoint_witness :
    splitColon (encryptEndpoint (fun _ _ _ => 7) (fun _ _ _ => [1, 2])
        [104, 116, 116, 112] [Char.ofNat 97, Char.ofNat 98] [0, 1]) =
      [bytesToHex [0, 1],
        bytesToHex ((fun _ _ _ => [1, 2]) (hexToBytes [Char.ofNat 97, Char.ofNat 98]) [0, 1]
          (ctrXor ((fun _ _ _ => 7) (hexToBytes [Char.ofNat 97, Char.ofNat 98]) [0, 1]) 0
            [104, 116, 116, 112])),
        bytesToHex (ctrXor ((fun _ _ _ => 7) (hexToBytes [Char.ofNat 97, Char.ofNat 98]) [0, 1]) 0
          [104, 116, 116, 112])] ∧
    decryptEndpoint (fun _ _ _ => 7) (fun _ _ _ => [1, 2])
        (encryptEndpoint (fun _ _ _ => 7) (fun _ _ _ => [1, 2])
          [104, 116, 116, 112] [Char.ofNat 97, Char.ofNat 98] [0, 1])
        [Char.ofNat 97, Char.ofNat 98] =
      some [104, 116, 116, 112] :=
  encryptEndpoint_decryptEndpoint (fun _ _ _ => 7) (fun _ _ _ => [1, 2])
    [104, 116, 116, 112] [Char.ofNat 97, Char.ofNat 98] [0, 1]
    (fun _ => by show (7 : ℕ) < 256; decide) (by decide) (by decide) (by decide)

/-- C7 witness: the freshness-gate characterisation at a concrete request whose
timestamp equals now, with the injected verifier accepting. -/
theorem ingest_freshness_gate_witness :
    ((ingest (fun _ _ _ => true) RelayState.init "agent-r" (some "sig") (some 0)
        { event_id := some "evt-1", data := "d" } 0 "u1").1 =
        DeliveryResult.unauthorized ↔ MAX_AGE_MS < |(0 : ℤ) - 0|) ∧
    ((0 : ℤ) = 0 - 301000 →
      (ingest (fun _ _ _ => true) RelayState.init "agent-r" (some "sig") (some 0)
        { event_id := some "evt-1", data := "d" } 0 "u1").1 =
        DeliveryResult.unauthorized) ∧
    ((0 : ℤ) = 0 - 299000 →
      (ingest (fun _ _ _ => true) RelayState.init "agent-r" (some "sig") (some 0)
        { event_id := some "evt-1", data := "d" } 0 "u1").1 ≠
        DeliveryResult.unauthorized) :=
  ingest_freshness_gate (fun _ _ _ => true) RelayState.init "agent-r" "sig" 0 0
    { event_id := some "evt-1", data := "d" } "u1" rfl
